import Mathlib

/-!
Shallow embedding of `src/system_monitor.py` (class `SystemMonitor`):
the GPU resolver `get_gpu_info` (lines 59-121), the CPU temperature
reader `get_cpu_temperature` (lines 46-57), the sampling tick
`update_system_info` (lines 123-146), the popup state operations
`create_popup` / `show_popup` / `hide_popup` / `_toggle_popup_main_thread`
(lines 148-300) and `shutdown` (lines 302-310).

External effects (subprocess results, WMI sensor enumeration, psutil
reads) are supplied by explicit environment records; Python exceptions
are modelled as values of an `Exn` type, and a Python `try/except`
becomes a total match on those values.  Python floats that the claims
never compute with are modelled as `Int` (sensor values, percentages);
the PowerShell `float(...)` parse is modelled as an exact decimal
(`Dec`, a sign with a scaled numerator).  The Python
string methods `strip` / `split` / `lower` and the `in` substring test
are modelled by structurally recursive functions on `List Char`.
-/

/-- Python `str.strip()`: drop whitespace from both ends. -/
def pyStrip (s : String) : String :=
  String.mk (((s.data.dropWhile Char.isWhitespace).reverse.dropWhile Char.isWhitespace).reverse)

/-- Python `str.lower()`: lower-case every character. -/
def pyLower (s : String) : String :=
  String.mk (s.data.map Char.toLower)

/-- If the character list starts with the pattern, the remainder after
the pattern; otherwise `none`. -/
def dropPre : List Char → List Char → Option (List Char)
  | rest, [] => some rest
  | [], _ :: _ => none
  | c :: cs, p :: ps => if c = p then dropPre cs ps else none

/-- Worker for `pySplit`: scan left to right, cutting at each leftmost
occurrence of the (non-empty) pattern.  The fuel argument, initialised
to the list length, only bounds recursion depth. -/
def pySplitAux (pat : List Char) : Nat → List Char → List (List Char)
  | _, [] => [[]]
  | 0, cs => [cs]
  | Nat.succ fuel, c :: cs =>
    match dropPre (c :: cs) pat with
    | some rest => [] :: pySplitAux pat fuel rest
    | none =>
      match pySplitAux pat fuel cs with
      | [] => [[]]
      | h :: t => (c :: h) :: t

/-- Python `str.split(sep)` with a non-empty separator: always returns
at least one part; `"".split(sep) == [""]`. -/
def pySplit (s sep : String) : List String :=
  (pySplitAux sep.data s.data.length s.data).map String.mk

/-- Python's substring test `pat in s`: true iff splitting on the
(non-empty) pattern yields more than one part. -/
def hasSub (s pat : String) : Bool :=
  (pySplit s pat).length != 1

/-- A Python exception reaching a `try` boundary in the monitor code:
`subprocess.TimeoutExpired`, `FileNotFoundError`, or any other
`Exception` (carrying its message). -/
inductive Exn where
  | timeoutExpired
  | fileNotFound
  | other (msg : String)
deriving DecidableEq

/-- Outcome of a `subprocess.run(..., timeout=5)` call: either the
process completed (with a return code and captured stdout), or the call
raised (`TimeoutExpired`, `FileNotFoundError`, or another exception). -/
inductive ProcOutcome where
  | completed (returncode : Int) (stdout : String)
  | timeoutExpired
  | fileNotFound
  | raised (msg : String)
deriving DecidableEq

/-- One WMI sensor row from the `root/OpenHardwareMonitor` namespace:
`sensor.Name`, `sensor.SensorType`, `sensor.Value` (value modelled as
`Int`; the code renders it with `:.0f`). -/
structure Sensor where
  name : String
  sensorType : String
  value : Int
deriving DecidableEq

/-- Environment a single `get_gpu_info` call runs in: whether the
`import subprocess` / `import json` statements inside the outer `try`
raise, the outcome of the `nvidia-smi` invocation (lines 67-71), the
WMI sensor enumeration (lines 86-92; `error` = any exception while
importing/connecting/iterating), and the PowerShell `Get-Counter`
invocation (lines 105-109). -/
structure GpuEnv where
  importsRaise : Bool
  nvidiaSmi : ProcOutcome
  wmiSensors : Except Exn (List Sensor)
  powershell : ProcOutcome

/-- Lines 73-80: given `result.returncode` and `result.stdout` of the
`nvidia-smi` call, the value returned from strategy 1, `none` when the
code falls through to the next strategy.  `lines = stdout.strip().split('\n')`;
`if lines and lines[0]`; `values = lines[0].split(', ')`;
`if len(values) >= 2: return (values[1].strip()+"°C", values[0].strip()+"%")`. -/
def nvidiaRow (returncode : Int) (stdout : String) : Option (String × String) :=
  if returncode = 0 then
    match pySplit (pyStrip stdout) "\n" with
    | [] => none
    | l0 :: _ =>
      if l0 = "" then none
      else
        match pySplit l0 ", " with
        | v0 :: v1 :: _ => some (pyStrip v1 ++ "°C", pyStrip v0 ++ "%")
        | _ => none
  else none

/-- Strategy 1 (lines 66-82) with its `except (TimeoutExpired,
FileNotFoundError, Exception): pass` applied: a raised call yields
`none` (fall through to the next strategy). -/
def tryStrat1 (env : GpuEnv) : Option (String × String) :=
  match env.nvidiaSmi with
  | ProcOutcome.completed rc out => nvidiaRow rc out
  | _ => none

/-- `'gpu' in sensor.Name.lower()` (line 93). -/
def sensorIsGpu (s : Sensor) : Bool := hasSub (pyLower s.name) "gpu"

/-- `'temperature' in sensor.SensorType.lower()` (line 94). -/
def sensorIsTemp (s : Sensor) : Bool := hasSub (pyLower s.sensorType) "temperature"

/-- `'load' in sensor.SensorType.lower()` (line 96). -/
def sensorIsLoad (s : Sensor) : Bool := hasSub (pyLower s.sensorType) "load"

/-- The sensor loop of lines 92-97, threading the `(gpu_temp, gpu_usage)`
accumulator initialised to `("N/A", "N/A")` (lines 89-90): each matching
sensor overwrites the corresponding slot. -/
def wmiScan : List Sensor → String × String → String × String
  | [], acc => acc
  | x :: rest, acc =>
    if sensorIsGpu x then
      if sensorIsTemp x then wmiScan rest (toString x.value ++ "°C", acc.2)
      else if sensorIsLoad x then wmiScan rest (acc.1, toString x.value ++ "%")
      else wmiScan rest acc
    else wmiScan rest acc

/-- Strategy 2 (lines 85-101) with its bare `except: pass` applied: on a
successful WMI connection the scan result is returned unconditionally
(line 99), even when no sensor matched; any exception yields `none`. -/
def tryStrat2 (env : GpuEnv) : Option (String × String) :=
  match env.wmiSensors with
  | Except.ok sensors => some (wmiScan sensors ("N/A", "N/A"))
  | Except.error _ => none

/-- Digit run to a natural number (used by the decimal model of
`float(...)`). -/
def digitsVal (cs : List Char) : Nat :=
  cs.foldl (fun n c => n * 10 + (c.toNat - 48)) 0

/-- An exact decimal `(-1)^neg * num / 10^scale`, the model of the
parsed counter value (floats the claims never compute with). -/
structure Dec where
  neg : Bool
  num : Nat
  scale : Nat
deriving DecidableEq

/-- Decimal model of Python `float(s)` on the stripped counter output:
optional sign, an integer part and/or a fractional part.  Returns
`none` where `float` would raise `ValueError`. -/
def parseDecimal (s : String) : Option Dec :=
  let signAndRest : Bool × List Char :=
    match s.data with
    | '-' :: t => (true, t)
    | '+' :: t => (false, t)
    | t => (false, t)
  let ip := signAndRest.2.takeWhile Char.isDigit
  let rest := signAndRest.2.dropWhile Char.isDigit
  match rest with
  | [] => if ip = [] then none else some ⟨signAndRest.1, digitsVal ip, 0⟩
  | '.' :: fp =>
    if fp.all Char.isDigit ∧ (ip ≠ [] ∨ fp ≠ []) then
      some ⟨signAndRest.1, digitsVal ip * 10 ^ fp.length + digitsVal fp, fp.length⟩
    else none
  | _ => none

/-- Decimal model of the f-string `f"{v:.1f}"`: round the magnitude to
tenths and render with one fractional digit. -/
def fmtTenths (d : Dec) : String :=
  let t := (d.num * 20 + 10 ^ d.scale) / (2 * 10 ^ d.scale)
  (if d.neg then "-" else "") ++ toString (t / 10) ++ "." ++ toString (t % 10)

/-- Strategy 3 (lines 104-115) with its bare `except: pass` applied:
on a completed PowerShell call with exit code 0 and non-empty stripped
stdout, `float(...)` is attempted; a parse failure models the caught
`ValueError`.  Temperature is never available on this path. -/
def tryStrat3 (env : GpuEnv) : Option (String × String) :=
  match env.powershell with
  | ProcOutcome.completed rc out =>
    if rc = 0 ∧ pyStrip out ≠ "" then
      match parseDecimal (pyStrip out) with
      | some v => some ("N/A", fmtTenths v ++ "%")
      | none => none
    else none
  | _ => none

/-- Body of the outer `try` of `get_gpu_info` (lines 61-117): the
imports may raise; otherwise the three strategies run in order, each
already wrapped in its own swallowing handler, and the fall-through
value is `("N/A", "N/A")` (line 117). -/
def gpuResolverBody (env : GpuEnv) : Except Exn (String × String) :=
  if env.importsRaise then Except.error (Exn.other "ImportError")
  else
    match tryStrat1 env with
    | some p => Except.ok p
    | none =>
      match tryStrat2 env with
      | some p => Except.ok p
      | none =>
        match tryStrat3 env with
        | some p => Except.ok p
        | none => Except.ok ("N/A", "N/A")

/-- `get_gpu_info` (lines 59-121): the body under the outer
`except Exception: return ("N/A", "N/A")` handler (lines 119-121).
Returns the `(gpu_temp, gpu_usage)` pair. -/
def get_gpu_info (env : GpuEnv) : String × String :=
  match gpuResolverBody env with
  | Except.ok p => p
  | Except.error _ => ("N/A", "N/A")

/-- The three GPU strategies in their fixed priority order. -/
inductive Strategy where
  | primaryTool
  | hardwareSensorService
  | osPerfCounter
deriving DecidableEq

/-- The strategies a `get_gpu_info` call actually starts, in order,
following the control flow of lines 66-115: strategy 2 runs only when
strategy 1 did not return, strategy 3 only when strategy 2 did not
return; nothing runs when the imports raise. -/
def attempted (env : GpuEnv) : List Strategy :=
  if env.importsRaise then []
  else
    Strategy.primaryTool ::
      match tryStrat1 env with
      | some _ => []
      | none =>
        Strategy.hardwareSensorService ::
          match tryStrat2 env with
          | some _ => []
          | none => [Strategy.osPerfCounter]

/-- The scan of lines 51-54 over the `psutil.sensors_temperatures()`
dictionary (an association of sensor-group names to entry lists): the
first entry under a name containing `cpu` or `core` (case-insensitive)
is returned; a matching name with no entries is skipped. -/
def cpuTempScan : List (String × List Int) → Option Int
  | [] => none
  | (name, entries) :: rest =>
    if hasSub (pyLower name) "cpu" || hasSub (pyLower name) "core" then
      match entries with
      | [] => cpuTempScan rest
      | e :: _ => some e
    else cpuTempScan rest

/-- `get_cpu_temperature` (lines 46-57): `temps` is the sensor
dictionary, `none` when `psutil.sensors_temperatures()` raised (the
bare `except` returns `"N/A"`); an empty dictionary fails the
`if temps:` check.  Entry temperatures are modelled as `Int`, so the
`:.1f` rendering always carries a `.0` fraction. -/
def get_cpu_temperature (temps : Option (List (String × List Int))) : String :=
  match temps with
  | none => "N/A"
  | some l =>
    if l = [] then "N/A"
    else
      match cpuTempScan l with
      | some v => toString v ++ ".0°C"
      | none => "N/A"

/-- Mutable attributes of a `SystemMonitor` instance that the modelled
operations read or write, plus two facts about the surrounding process:
whether the hotkey hook is still registered and whether the tkinter
main loop is still running (`root.quit()` ends it).  The popup window
is modelled by its existence (`popup_window is not None`). -/
structure MonState where
  cpu_percent : Int
  cpu_temp : String
  gpu_temp : String
  gpu_usage : String
  memory_percent : Int
  is_popup_visible : Bool
  popup_window : Option Unit
  monitoring : Bool
  hotkey_hooked : Bool
  loop_running : Bool
deriving DecidableEq

/-- The state after `__init__` (lines 11-28): popup hidden with no
window, monitoring on, storage defaults, hotkey hook installed by
`setup_hotkey_monitoring`, main loop about to run. -/
def initState : MonState :=
  { cpu_percent := 0
    cpu_temp := "N/A"
    gpu_temp := "N/A"
    gpu_usage := "N/A"
    memory_percent := 0
    is_popup_visible := false
    popup_window := none
    monitoring := true
    hotkey_hooked := true
    loop_running := true }

/-- Environment a single `update_system_info` tick runs in: the
`psutil.cpu_percent` read (may raise), the sensor dictionary for
`get_cpu_temperature` (`none` = raised), the
`psutil.virtual_memory().percent` read (may raise), and the GPU
resolver's environment. -/
structure TickEnv where
  cpuPercentRead : Except Exn Int
  sensorsTemps : Option (List (String × List Int))
  virtualMemoryRead : Except Exn Int
  gpu : GpuEnv

/-- `update_system_info` (lines 123-146): one sampling tick.  The
single `try` spans all four reads (lines 125-139), so a raising read
aborts the remaining assignments of that tick while keeping the ones
already made; the `except` only prints.  The returned `Bool` is the
line 145 check `if self.monitoring:` that schedules the next tick via
`root.after(2000, ...)`.  The popup-content refresh (lines 138-139)
touches only tkinter labels, not these attributes. -/
def update_system_info (env : TickEnv) (s : MonState) : MonState × Bool :=
  let s1 :=
    match env.cpuPercentRead with
    | Except.error _ => s
    | Except.ok cp =>
      let sa := { s with cpu_percent := cp, cpu_temp := get_cpu_temperature env.sensorsTemps }
      match env.virtualMemoryRead with
      | Except.error _ => sa
      | Except.ok mp =>
        let sb := { sa with memory_percent := mp }
        let gp := get_gpu_info env.gpu
        { sb with gpu_temp := gp.1, gpu_usage := gp.2 }
  (s1, s1.monitoring)

/-- `create_popup` (lines 148-251): returns immediately when a window
already exists, otherwise builds the `Toplevel` window. -/
def create_popup (s : MonState) : MonState :=
  if s.popup_window.isSome then s else { s with popup_window := some () }

/-- `show_popup` (lines 277-281): only acts when currently hidden. -/
def show_popup (s : MonState) : MonState :=
  if s.is_popup_visible then s
  else
    let s1 := create_popup s
    { s1 with is_popup_visible := true }

/-- `hide_popup` (lines 283-288): only acts when visible with a live
window handle. -/
def hide_popup (s : MonState) : MonState :=
  if s.is_popup_visible && s.popup_window.isSome then
    { s with popup_window := none, is_popup_visible := false }
  else s

/-- `_toggle_popup_main_thread` (lines 295-300), the toggle body that
`toggle_popup` marshals onto the main thread. -/
def toggle_popup_main_thread (s : MonState) : MonState :=
  if s.is_popup_visible then hide_popup s else show_popup s

/-- `shutdown` (lines 302-310): stop monitoring, hide the popup,
unhook the hotkey under a swallowing `try` (`unhookRaises` says whether
`keyboard.unhook_all()` raised), and `root.quit()` the main loop. -/
def shutdown (unhookRaises : Bool) (s : MonState) : MonState :=
  let s1 := { s with monitoring := false }
  let s2 := hide_popup s1
  let s3 := if unhookRaises then s2 else { s2 with hotkey_hooked := false }
  { s3 with loop_running := false }

/-- A tkinter timer callback scheduled with `root.after` can only fire
while the main loop is running; `root.quit()` (line 310) ends it. -/
def canTick (s : MonState) : Bool := s.loop_running

/-- The two execution contexts of the process: the thread running the
tkinter main loop (`root.mainloop()`, line 330) and the daemon thread
started by `setup_hotkey_monitoring` (lines 34-44). -/
inductive ExecContext where
  | mainThread
  | hotkeyDaemonThread
deriving DecidableEq

/-- How a piece of work is dispatched: `root.after(delay, f)` runs `f`
as a callback of the tkinter main loop on the main thread;
`threading.Thread(target=f, daemon=True).start()` runs `f` on a new
daemon thread. -/
inductive Dispatch where
  | rootAfter (delayMs : Nat)
  | daemonThread
deriving DecidableEq

/-- The context a dispatched piece of work executes in. -/
def Dispatch.runContext : Dispatch → ExecContext
  | Dispatch.rootAfter _ => ExecContext.mainThread
  | Dispatch.daemonThread => ExecContext.hotkeyDaemonThread

/-- The context owning the UI: `root = tk.Tk()` is created and
`root.mainloop()` runs on the main thread (lines 315, 330). -/
def uiLoopContext : ExecContext := ExecContext.mainThread

/-- Line 146: `self.root.after(2000, self.update_system_info)` — every
sampling tick (after the first direct call from `__init__` on the main
thread) is dispatched as a 2000 ms tkinter timer callback. -/
def samplingDispatch : Dispatch := Dispatch.rootAfter 2000

/-- Line 293: `self.root.after(0, self._toggle_popup_main_thread)` —
the hotkey toggle is marshalled onto the main thread. -/
def toggleDispatch : Dispatch := Dispatch.rootAfter 0

/-- Lines 43-44: the hotkey watcher runs on a daemon thread. -/
def hotkeyDispatch : Dispatch := Dispatch.daemonThread

/-- Line 71: `subprocess.run([...'nvidia-smi'...], timeout=5)`. -/
def nvidiaSmiTimeoutMs : Nat := 5000

/-- Line 109: `subprocess.run(['powershell', ...], timeout=5)`. -/
def powershellTimeoutMs : Nat := 5000

/-- A sensor taken by the temperature branch of line 94: GPU-named and
temperature-typed. -/
def tempMatch (x : Sensor) : Bool := sensorIsGpu x && sensorIsTemp x

/-- A sensor taken by the load branch of line 96: GPU-named, not
temperature-typed (the `elif`), and load-typed. -/
def loadMatch (x : Sensor) : Bool := sensorIsGpu x && (!sensorIsTemp x && sensorIsLoad x)

/-- The condition under which strategy 1 actually returns, read off
lines 73-77: exit code 0, non-empty first stripped-output line, and at
least two `", "`-separated fields in it.  Numeric content of the fields
is never examined. -/
def primaryRowCondition (returncode : Int) (stdout : String) : Bool :=
  (returncode == 0) &&
    (match pySplit (pyStrip stdout) "\n" with
     | [] => false
     | l0 :: _ =>
       l0 != "" &&
         (match pySplit l0 ", " with
          | _ :: _ :: _ => true
          | _ => false))

/-- The visibility invariant: the flag set on line 281/288 agrees with
the existence of the window handle set on line 153/287. -/
def popupInv (s : MonState) : Prop := s.is_popup_visible = s.popup_window.isSome

theorem wmiScan_append (l1 l2 : List Sensor) (acc : String × String) :
    wmiScan (l1 ++ l2) acc = wmiScan l2 (wmiScan l1 acc) := by
  induction l1 generalizing acc with
  | nil => rfl
  | cons x t ih =>
    simp only [List.cons_append, wmiScan]
    by_cases hg : sensorIsGpu x <;> by_cases ht : sensorIsTemp x <;>
      by_cases hl : sensorIsLoad x <;> simp [hg, ht, hl, ih]

theorem wmiScan_fst_of_no_temp (l : List Sensor) (acc : String × String)
    (h : ∀ x ∈ l, tempMatch x = false) :
    (wmiScan l acc).1 = acc.1 := by
  induction l generalizing acc with
  | nil => rfl
  | cons x t ih =>
    have hx := h x (List.mem_cons_self x t)
    have hrest : ∀ y ∈ t, tempMatch y = false := fun y hy => h y (List.mem_cons_of_mem x hy)
    unfold tempMatch at hx
    by_cases hg : sensorIsGpu x
    · simp only [hg, Bool.true_and] at hx
      by_cases hl : sensorIsLoad x <;> simp [wmiScan, hg, hx, hl, ih _ hrest]
    · simp [wmiScan, hg, ih _ hrest]

theorem wmiScan_snd_of_no_load (l : List Sensor) (acc : String × String)
    (h : ∀ x ∈ l, loadMatch x = false) :
    (wmiScan l acc).2 = acc.2 := by
  induction l generalizing acc with
  | nil => rfl
  | cons x t ih =>
    have hx := h x (List.mem_cons_self x t)
    have hrest : ∀ y ∈ t, loadMatch y = false := fun y hy => h y (List.mem_cons_of_mem x hy)
    unfold loadMatch at hx
    by_cases hg : sensorIsGpu x
    · by_cases ht : sensorIsTemp x
      · simp [wmiScan, hg, ht, ih _ hrest]
      · simp only [hg, ht, Bool.not_false, Bool.true_and] at hx
        simp [wmiScan, hg, ht, hx, ih _ hrest]
    · simp [wmiScan, hg, ih _ hrest]

/-- C1: if the primary GPU tool is present, exits with code 0, and its
first output row is the well-formed pair `"45, 62"`
(utilization, temperature), then `get_gpu_info` returns utilization
`45%` and temperature `62°C` for that tick — whatever the WMI service
and the performance counter would report — and neither the
hardware-sensor-service strategy nor the OS-performance-counter
strategy is started. -/
theorem nvidia_wellformed_row_short_circuits
    (w : Except Exn (List Sensor)) (ps : ProcOutcome) :
    get_gpu_info { importsRaise := false, nvidiaSmi := ProcOutcome.completed 0 "45, 62",
                   wmiSensors := w, powershell := ps } = ("62°C", "45%") ∧
    attempted { importsRaise := false, nvidiaSmi := ProcOutcome.completed 0 "45, 62",
                wmiSensors := w, powershell := ps } = [Strategy.primaryTool] := by
  have h1 : tryStrat1 { importsRaise := false, nvidiaSmi := ProcOutcome.completed 0 "45, 62",
                        wmiSensors := w, powershell := ps } = some ("62°C", "45%") := rfl
  exact ⟨by simp [get_gpu_info, gpuResolverBody, h1], by simp [attempted, h1]⟩

/-- C2 counterexample: with the primary tool absent, the
hardware-sensor service connecting successfully but exposing no GPU
channel, and the OS performance counter ready to answer `37.5`, the
resolver returns fully-absent values without ever starting the
OS-performance-counter strategy — even though that strategy would have
produced usable data. -/
theorem wmi_connected_empty_skips_perf_counter :
    get_gpu_info { importsRaise := false, nvidiaSmi := ProcOutcome.fileNotFound,
                   wmiSensors := Except.ok [], powershell := ProcOutcome.completed 0 "37.5" }
      = ("N/A", "N/A") ∧
    attempted { importsRaise := false, nvidiaSmi := ProcOutcome.fileNotFound,
                wmiSensors := Except.ok [], powershell := ProcOutcome.completed 0 "37.5" }
      = [Strategy.primaryTool, Strategy.hardwareSensorService] ∧
    Strategy.osPerfCounter ∉
      attempted { importsRaise := false, nvidiaSmi := ProcOutcome.fileNotFound,
                  wmiSensors := Except.ok [], powershell := ProcOutcome.completed 0 "37.5" } ∧
    tryStrat3 { importsRaise := false, nvidiaSmi := ProcOutcome.fileNotFound,
                wmiSensors := Except.ok [], powershell := ProcOutcome.completed 0 "37.5" }
      = some ("N/A", "37.5%") := by
  refine ⟨by decide, by decide, by decide, by decide⟩

/-- C2 amended: the chain runs strictly in order, but a strategy-2
connection that succeeds always ends the chain, usable data or not:
whenever strategy 1 yields nothing and the WMI enumeration succeeds,
the resolver returns the scan result (possibly fully absent) and the
OS-performance-counter strategy is not started; that strategy is
started exactly when strategy 1 yields nothing and strategy 2 raises. -/
theorem fallback_chain_order_amended :
    (∀ (env : GpuEnv) (sensors : List Sensor),
      env.importsRaise = false → env.wmiSensors = Except.ok sensors → tryStrat1 env = none →
      get_gpu_info env = wmiScan sensors ("N/A", "N/A") ∧
      attempted env = [Strategy.primaryTool, Strategy.hardwareSensorService]) ∧
    (∀ env : GpuEnv, env.importsRaise = false →
      (Strategy.osPerfCounter ∈ attempted env ↔ tryStrat1 env = none ∧ tryStrat2 env = none)) := by
  constructor
  · intro env sensors hi hw h1
    have h2 : tryStrat2 env = some (wmiScan sensors ("N/A", "N/A")) := by
      unfold tryStrat2; rw [hw]
    exact ⟨by simp [get_gpu_info, gpuResolverBody, hi, h1, h2],
           by simp [attempted, hi, h1, h2]⟩
  · intro env hi
    cases h1 : tryStrat1 env <;> cases h2 : tryStrat2 env <;>
      simp [attempted, hi, h1, h2]

theorem fallback_chain_order_amended_witness :
    get_gpu_info { importsRaise := false, nvidiaSmi := ProcOutcome.timeoutExpired,
                   wmiSensors := Except.ok [], powershell := ProcOutcome.fileNotFound }
      = ("N/A", "N/A") ∧
    (Strategy.osPerfCounter ∈
        attempted { importsRaise := false, nvidiaSmi := ProcOutcome.timeoutExpired,
                    wmiSensors := Except.ok [], powershell := ProcOutcome.fileNotFound } ↔
      tryStrat1 { importsRaise := false, nvidiaSmi := ProcOutcome.timeoutExpired,
                  wmiSensors := Except.ok [], powershell := ProcOutcome.fileNotFound } = none ∧
      tryStrat2 { importsRaise := false, nvidiaSmi := ProcOutcome.timeoutExpired,
                  wmiSensors := Except.ok [], powershell := ProcOutcome.fileNotFound } = none) :=
  ⟨(fallback_chain_order_amended.1
      { importsRaise := false, nvidiaSmi := ProcOutcome.timeoutExpired,
        wmiSensors := Except.ok [], powershell := ProcOutcome.fileNotFound } [] rfl rfl rfl).1,
   fallback_chain_order_amended.2
      { importsRaise := false, nvidiaSmi := ProcOutcome.timeoutExpired,
        wmiSensors := Except.ok [], powershell := ProcOutcome.fileNotFound } rfl⟩

/-- C3 counterexample: a first data row `"foo, bar"` whose fields are
not parseable as numbers still stops the chain: the resolver returns
the unparsed fields with unit suffixes and never starts a fallback
strategy, even though the sensor service had a usable GPU channel. -/
theorem nonnumeric_row_still_stops_chain :
    get_gpu_info { importsRaise := false, nvidiaSmi := ProcOutcome.completed 0 "foo, bar",
                   wmiSensors := Except.ok [Sensor.mk "GPU Core" "Temperature" 55],
                   powershell := ProcOutcome.raised "x" } = ("bar°C", "foo%") ∧
    attempted { importsRaise := false, nvidiaSmi := ProcOutcome.completed 0 "foo, bar",
                wmiSensors := Except.ok [Sensor.mk "GPU Core" "Temperature" 55],
                powershell := ProcOutcome.raised "x" } = [Strategy.primaryTool] := by
  refine ⟨by decide, by decide⟩

/-- C3 amended: the primary-tool strategy counts as successful exactly
when the process exits with code 0 and its first stripped-output line
is non-empty with at least two `", "`-separated fields
(`primaryRowCondition`); numeric parseability of the fields is not
required, and any such row stops the chain with strategy 1's value. -/
theorem primary_tool_success_condition_amended :
    ∀ (env : GpuEnv) (rc : Int) (out : String),
      env.nvidiaSmi = ProcOutcome.completed rc out →
      ((tryStrat1 env).isSome = primaryRowCondition rc out) ∧
      (env.importsRaise = false → ∀ p, tryStrat1 env = some p →
        get_gpu_info env = p ∧ attempted env = [Strategy.primaryTool]) := by
  intro env rc out h
  constructor
  · have : tryStrat1 env = nvidiaRow rc out := by unfold tryStrat1; rw [h]
    rw [this]
    unfold nvidiaRow primaryRowCondition
    by_cases h0 : rc = 0
    · simp only [h0, if_true, beq_self_eq_true, Bool.true_and]
      cases hs : pySplit (pyStrip out) "\n" with
      | nil => simp
      | cons l0 rest =>
        by_cases hl : l0 = ""
        · simp [hl]
        · cases hv : pySplit l0 ", " with
          | nil => simp [hl, hv]
          | cons v0 t =>
            cases t with
            | nil => simp [hl, hv]
            | cons v1 t2 => simp [hl, hv]
    · simp [h0]
  · intro hi p hp
    exact ⟨by simp [get_gpu_info, gpuResolverBody, hi, hp],
           by simp [attempted, hi, hp]⟩

theorem primary_tool_success_condition_amended_witness :
    (tryStrat1 { importsRaise := false, nvidiaSmi := ProcOutcome.completed 0 "foo, bar",
                 wmiSensors := Except.error (Exn.other "w"),
                 powershell := ProcOutcome.raised "x" }).isSome = primaryRowCondition 0 "foo, bar" ∧
    get_gpu_info { importsRaise := false, nvidiaSmi := ProcOutcome.completed 0 "foo, bar",
                   wmiSensors := Except.error (Exn.other "w"),
                   powershell := ProcOutcome.raised "x" } = ("bar°C", "foo%") :=
  ⟨(primary_tool_success_condition_amended
      { importsRaise := false, nvidiaSmi := ProcOutcome.completed 0 "foo, bar",
        wmiSensors := Except.error (Exn.other "w"), powershell := ProcOutcome.raised "x" }
      0 "foo, bar" rfl).1,
   ((primary_tool_success_condition_amended
      { importsRaise := false, nvidiaSmi := ProcOutcome.completed 0 "foo, bar",
        wmiSensors := Except.error (Exn.other "w"), powershell := ProcOutcome.raised "x" }
      0 "foo, bar" rfl).2 rfl ("bar°C", "foo%") rfl).1⟩

/-- C4 counterexample: with two GPU temperature channels of values 50
and 70 in enumeration order, the resolver reports `70°C` — the later
matching channel overrides the first, contradicting first-match-wins. -/
theorem later_temperature_channel_overrides :
    get_gpu_info { importsRaise := false, nvidiaSmi := ProcOutcome.fileNotFound,
                   wmiSensors := Except.ok [Sensor.mk "GPU Core" "Temperature" 50,
                                            Sensor.mk "GPU Hotspot" "Temperature" 70],
                   powershell := ProcOutcome.raised "x" } = ("70°C", "N/A") := by
  decide

/-- C4 amended: among GPU-named channels, the LAST channel of
temperature type (respectively of load type, via the `elif` also not of
temperature type) determines the reported value; earlier matching
channels are overwritten. -/
theorem wmi_last_matching_channel_wins :
    ∀ (l1 : List Sensor) (s : Sensor) (l2 : List Sensor) (acc : String × String),
      (tempMatch s = true → (∀ x ∈ l2, tempMatch x = false) →
        (wmiScan (l1 ++ s :: l2) acc).1 = toString s.value ++ "°C") ∧
      (loadMatch s = true → (∀ x ∈ l2, loadMatch x = false) →
        (wmiScan (l1 ++ s :: l2) acc).2 = toString s.value ++ "%") := by
  intro l1 s l2 acc
  rw [wmiScan_append]
  constructor
  · intro hs h2
    have hg : sensorIsGpu s = true := by
      revert hs; unfold tempMatch; cases sensorIsGpu s <;> simp
    have ht : sensorIsTemp s = true := by
      revert hs; unfold tempMatch; cases sensorIsTemp s <;> simp
    simp only [wmiScan, hg, ht, if_true]
    exact wmiScan_fst_of_no_temp l2 _ h2
  · intro hs h2
    have hg : sensorIsGpu s = true := by
      revert hs; unfold loadMatch; cases sensorIsGpu s <;> simp
    have ht : sensorIsTemp s = false := by
      revert hs; unfold loadMatch; cases sensorIsTemp s <;> simp
    have hl : sensorIsLoad s = true := by
      revert hs; unfold loadMatch; cases sensorIsLoad s <;> simp
    simp only [wmiScan, hg, ht, hl, if_true, if_false, Bool.false_eq_true]
    exact wmiScan_snd_of_no_load l2 _ h2

theorem wmi_last_matching_channel_wins_witness :
    (wmiScan ([] ++ Sensor.mk "GPU Core" "Temperature" 50 :: []) ("N/A", "N/A")).1 = "50°C" :=
  (wmi_last_matching_channel_wins [] (Sensor.mk "GPU Core" "Temperature" 50) [] ("N/A", "N/A")).1
    (by decide) (by simp)

/-- C5: any exception that reaches the resolver's outer boundary is
converted by the outer handler into fully-absent values — never
propagated to the caller — and when all three strategies yield nothing
(tool absent/raised/malformed, service unavailable, counter
absent/raised/unparseable) the resolver returns `("N/A", "N/A")`. -/
theorem resolver_never_raises_and_absent_on_total_failure :
    ∀ env : GpuEnv,
      (∀ e, gpuResolverBody env = Except.error e → get_gpu_info env = ("N/A", "N/A")) ∧
      (tryStrat1 env = none → tryStrat2 env = none → tryStrat3 env = none →
        get_gpu_info env = ("N/A", "N/A")) := by
  intro env
  constructor
  · intro e he
    unfold get_gpu_info
    rw [he]
  · intro h1 h2 h3
    cases hi : env.importsRaise <;> simp [get_gpu_info, gpuResolverBody, hi, h1, h2, h3]

theorem resolver_never_raises_and_absent_on_total_failure_witness :
    get_gpu_info { importsRaise := true, nvidiaSmi := ProcOutcome.fileNotFound,
                   wmiSensors := Except.error (Exn.other "w"),
                   powershell := ProcOutcome.timeoutExpired } = ("N/A", "N/A") ∧
    get_gpu_info { importsRaise := false, nvidiaSmi := ProcOutcome.timeoutExpired,
                   wmiSensors := Except.error (Exn.other "w"),
                   powershell := ProcOutcome.fileNotFound } = ("N/A", "N/A") :=
  ⟨(resolver_never_raises_and_absent_on_total_failure
      { importsRaise := true, nvidiaSmi := ProcOutcome.fileNotFound,
        wmiSensors := Except.error (Exn.other "w"),
        powershell := ProcOutcome.timeoutExpired }).1 (Exn.other "ImportError") rfl,
   (resolver_never_raises_and_absent_on_total_failure
      { importsRaise := false, nvidiaSmi := ProcOutcome.timeoutExpired,
        wmiSensors := Except.error (Exn.other "w"),
        powershell := ProcOutcome.fileNotFound }).2 rfl rfl rfl⟩

/-- C6 counterexample: when the CPU utilization read raises while the
memory read would return 50 and the GPU tool would return a well-formed
`"45, 62"` row, the tick leaves every stored field at its previous
value (here the `__init__` defaults): memory and GPU are not read and
nothing is recorded absent — only the next tick is still scheduled. -/
theorem cpu_failure_skips_memory_and_gpu_reads :
    update_system_info
      { cpuPercentRead := Except.error (Exn.other "boom"),
        sensorsTemps := some [("coretemp", [55])],
        virtualMemoryRead := Except.ok 50,
        gpu := { importsRaise := false, nvidiaSmi := ProcOutcome.completed 0 "45, 62",
                 wmiSensors := Except.error (Exn.other "w"),
                 powershell := ProcOutcome.raised "x" } }
      initState = (initState, true) ∧
    get_gpu_info { importsRaise := false, nvidiaSmi := ProcOutcome.completed 0 "45, 62",
                   wmiSensors := Except.error (Exn.other "w"),
                   powershell := ProcOutcome.raised "x" } = ("62°C", "45%") ∧
    initState.memory_percent = 0 ∧ initState.gpu_usage = "N/A" := by
  refine ⟨by decide, by decide, rfl, rfl⟩

/-- C6 amended: the tick-level handler catches a failing source, the
tick never crashes and the next tick is scheduled whenever monitoring
is on; but the reads are not isolated per source: a raising CPU read
aborts the whole tick with every field keeping its previous value, and
a raising memory read keeps the previous memory and GPU fields while
the CPU fields are already updated. -/
theorem tick_failure_caught_at_tick_boundary :
    ∀ (env : TickEnv) (s : MonState),
      ((update_system_info env s).2 = s.monitoring) ∧
      (∀ e, env.cpuPercentRead = Except.error e → (update_system_info env s).1 = s) ∧
      (∀ cp e, env.cpuPercentRead = Except.ok cp → env.virtualMemoryRead = Except.error e →
        ((update_system_info env s).1).cpu_percent = cp ∧
        ((update_system_info env s).1).cpu_temp = get_cpu_temperature env.sensorsTemps ∧
        ((update_system_info env s).1).memory_percent = s.memory_percent ∧
        ((update_system_info env s).1).gpu_temp = s.gpu_temp ∧
        ((update_system_info env s).1).gpu_usage = s.gpu_usage) := by
  intro env s
  refine ⟨?_, ?_, ?_⟩
  · cases hc : env.cpuPercentRead <;> cases hm : env.virtualMemoryRead <;>
      simp [update_system_info, hc, hm]
  · intro e he
    simp [update_system_info, he]
  · intro cp e hc hm
    simp [update_system_info, hc, hm]

theorem tick_failure_caught_at_tick_boundary_witness :
    (update_system_info
      { cpuPercentRead := Except.error (Exn.other "boom"), sensorsTemps := none,
        virtualMemoryRead := Except.ok 50,
        gpu := { importsRaise := false, nvidiaSmi := ProcOutcome.fileNotFound,
                 wmiSensors := Except.error (Exn.other "w"),
                 powershell := ProcOutcome.fileNotFound } }
      initState).1 = initState ∧
    ((update_system_info
      { cpuPercentRead := Except.ok 37, sensorsTemps := none,
        virtualMemoryRead := Except.error (Exn.other "m"),
        gpu := { importsRaise := false, nvidiaSmi := ProcOutcome.fileNotFound,
                 wmiSensors := Except.error (Exn.other "w"),
                 powershell := ProcOutcome.fileNotFound } }
      initState).1).memory_percent = initState.memory_percent :=
  ⟨(tick_failure_caught_at_tick_boundary
      { cpuPercentRead := Except.error (Exn.other "boom"), sensorsTemps := none,
        virtualMemoryRead := Except.ok 50,
        gpu := { importsRaise := false, nvidiaSmi := ProcOutcome.fileNotFound,
                 wmiSensors := Except.error (Exn.other "w"),
                 powershell := ProcOutcome.fileNotFound } }
      initState).2.1 (Exn.other "boom") rfl,
   ((tick_failure_caught_at_tick_boundary
      { cpuPercentRead := Except.ok 37, sensorsTemps := none,
        virtualMemoryRead := Except.error (Exn.other "m"),
        gpu := { importsRaise := false, nvidiaSmi := ProcOutcome.fileNotFound,
                 wmiSensors := Except.error (Exn.other "w"),
                 powershell := ProcOutcome.fileNotFound } }
      initState).2.2 37 (Exn.other "m") rfl rfl).2.2.1⟩

/-- C7: toggling twice returns the visibility flag to its original
value from any state, toggling never touches the monitoring flag, and
a sampling tick acts on the stored metrics and on its scheduling
decision identically whatever the visibility state — metric collection
is visibility-independent. -/
theorem toggle_twice_id_and_sampling_visibility_independent :
    ∀ (s : MonState) (env : TickEnv) (b : Bool) (w : Option Unit),
      (toggle_popup_main_thread (toggle_popup_main_thread s)).is_popup_visible
          = s.is_popup_visible ∧
      (toggle_popup_main_thread s).monitoring = s.monitoring ∧
      update_system_info env { s with is_popup_visible := b, popup_window := w } =
        ({ (update_system_info env s).1 with is_popup_visible := b, popup_window := w },
         (update_system_info env s).2) := by
  intro s env b w
  obtain ⟨cp, ct, gt, gu, mp, vis, win, mon, hk, lr⟩ := s
  refine ⟨?_, ?_, ?_⟩
  · cases vis <;> rcases win with _ | ⟨⟩ <;>
      simp [toggle_popup_main_thread, show_popup, hide_popup, create_popup]
  · cases vis <;> rcases win with _ | ⟨⟩ <;>
      simp [toggle_popup_main_thread, show_popup, hide_popup, create_popup]
  · cases hc : env.cpuPercentRead <;> cases hm : env.virtualMemoryRead <;>
      simp [update_system_info, hc, hm]

/-- C8: after `shutdown` returns, the main loop is stopped so no timer
callback — hence no further sampling tick — can fire, and even a tick
would no longer reschedule (`monitoring` is off); `shutdown` is
idempotent, total whether or not the hotkey unhook raises, and on the
never-shown initial state the popup handling is a no-op. -/
theorem shutdown_stops_ticks_idempotent_safe :
    ∀ (b : Bool) (s : MonState) (env : TickEnv),
      canTick (shutdown b s) = false ∧
      shutdown b (shutdown b s) = shutdown b s ∧
      (update_system_info env (shutdown b s)).2 = false ∧
      hide_popup initState = initState ∧
      (shutdown b initState).monitoring = false ∧
      (shutdown b initState).popup_window = none := by
  intro b s env
  obtain ⟨cp, ct, gt, gu, mp, vis, win, mon, hk, lr⟩ := s
  refine ⟨rfl, ?_, ?_, rfl, by cases b <;> rfl, by cases b <;> rfl⟩
  · cases b <;> cases vis <;> rcases win with _ | ⟨⟩ <;>
      simp [shutdown, hide_popup]
  · cases hc : env.cpuPercentRead <;> cases hm : env.virtualMemoryRead <;>
      cases b <;> cases vis <;> rcases win with _ | ⟨⟩ <;>
      simp [update_system_info, shutdown, hide_popup, hc, hm]

/-- C9 counterexample: the sampling tick is dispatched with
`root.after(2000, ...)` (line 146), so it executes as a callback of the
tkinter main loop — the very context that owns the UI — not on a
separate execution context. -/
theorem sampling_runs_on_ui_loop :
    samplingDispatch.runContext = uiLoopContext := rfl

/-- C9 amended: all sampling work, including the external-process
invocations with their two bounded 5-second timeouts (10 s worst
case), runs as tkinter timer callbacks on the UI-owning main loop and
can therefore block it; only the hotkey watcher runs on a separate
(daemon-thread) context, and its toggle is marshalled back onto the
main loop with `root.after(0, ...)`. -/
theorem execution_contexts_amended :
    samplingDispatch.runContext = uiLoopContext ∧
    hotkeyDispatch.runContext ≠ uiLoopContext ∧
    toggleDispatch.runContext = uiLoopContext ∧
    nvidiaSmiTimeoutMs + powershellTimeoutMs = 10000 := by
  refine ⟨rfl, by decide, rfl, rfl⟩

/-- C10: the invariant "the visibility flag is true iff a popup window
handle exists" holds in the initial state and is preserved by
`show_popup`, `hide_popup`, the toggle and `shutdown`; showing while
shown and hiding while hidden are no-ops. -/
theorem popup_invariant_preserved :
    popupInv initState ∧
    ∀ (s : MonState) (b : Bool), popupInv s →
      popupInv (show_popup s) ∧ popupInv (hide_popup s) ∧
      popupInv (toggle_popup_main_thread s) ∧ popupInv (shutdown b s) ∧
      (s.is_popup_visible = true → show_popup s = s) ∧
      (s.is_popup_visible = false → hide_popup s = s) := by
  constructor
  · rfl
  · intro s b hs
    obtain ⟨cp, ct, gt, gu, mp, vis, win, mon, hk, lr⟩ := s
    cases vis <;> rcases win with _ | ⟨⟩ <;> cases b <;>
      simp_all [popupInv, show_popup, hide_popup, create_popup,
                toggle_popup_main_thread, shutdown]

theorem popup_invariant_preserved_witness :
    popupInv (show_popup initState) ∧ hide_popup initState = initState :=
  ⟨(popup_invariant_preserved.2 initState false rfl).1,
   (popup_invariant_preserved.2 initState false rfl).2.2.2.2.2 rfl⟩
